import Mathlib

/-!
Verification of the field/weather ETL pipelines
(`data_ingestion.py`, `field_data_processor.py`, `weather_data_processor.py`)
against their design specification.

The tabular data model is a shallow embedding of a pandas `DataFrame`:
an ordered list of column labels together with row-major data; cells are
numeric (`Rat`), string, or null (`NaN`/`None`).  Fallible operations
return `Option`/`Except`; external collaborators (the SQL/CSV fetch, the
compiled regular expressions, Python's `float` parser) are parameters.
-/

set_option maxHeartbeats 1000000

/-- A scalar cell of a tabular dataset: numeric, string, or null. -/
inductive Cell where
  | num (q : Rat)
  | str (s : String)
  | null
deriving DecidableEq, Repr

/-- A pandas DataFrame: ordered column labels and row-major data. -/
structure DataFrame where
  columns : List String
  rows : List (List Cell)
deriving DecidableEq, Repr

/-- Index of the first column with the given label (pandas column lookup). -/
def colIdx : List String → String → Option Nat
  | [], _ => Option.none
  | c :: rest, lbl => if c = lbl then some 0 else (colIdx rest lbl).map (· + 1)

/-- The values of the column with the given label, if present. -/
def getCol (df : DataFrame) (lbl : String) : Option (List Cell) :=
  (colIdx df.columns lbl).map (fun i => df.rows.map (fun r => r.getD i Cell.null))

/-- Fuel-bounded search for a temporary label: append an underscore while the
candidate collides with an existing column label (the `while` loop of
`rename_columns`). -/
def tempNameAux : Nat → String → List String → String
  | 0, t, _ => t
  | n + 1, t, cols => if t ∈ cols then tempNameAux n (t ++ "_") cols else t

/-- The collision-free temporary label chosen by `rename_columns`. -/
def tempName (cols : List String) : String :=
  tempNameAux (cols.length + 1) "__temp_name_for_swap__" cols

theorem countP_le_of_imp (p q : String → Bool) (h : ∀ a, p a = true → q a = true) :
    ∀ l : List String, l.countP p ≤ l.countP q := by
  intro l
  induction l with
  | nil => simp
  | cons a t ih =>
      rw [List.countP_cons, List.countP_cons]
      by_cases hpa : p a = true
      · have hqa := h a hpa
        simp [hpa, hqa]
        omega
      · simp [hpa]
        split <;> omega

theorem countP_len_succ_lt (t : String) :
    ∀ cols : List String, t ∈ cols →
      cols.countP (fun c => decide (t.length + 1 ≤ c.length)) <
        cols.countP (fun c => decide (t.length ≤ c.length)) := by
  intro cols
  induction cols with
  | nil => intro h; cases h
  | cons a rest ih =>
      intro hmem
      rw [List.countP_cons, List.countP_cons]
      rcases List.mem_cons.mp hmem with rfl | hrest
      · have hmono := countP_le_of_imp (fun c => decide (t.length + 1 ≤ c.length))
          (fun c => decide (t.length ≤ c.length)) (fun a ha => by
            simp only [decide_eq_true_eq] at ha ⊢
            omega) rest
        simp only [decide_eq_true_eq]
        have h1 : ¬ (t.length + 1 ≤ t.length) := by omega
        simp [h1]
        omega
      · have hlt := ih hrest
        by_cases hc : t.length + 1 ≤ a.length
        · have hc2 : t.length ≤ a.length := by omega
          simp [hc, hc2]
          omega
        · by_cases hc2 : t.length ≤ a.length
          · simp [hc, hc2]
            omega
          · simp [hc, hc2]
            omega

theorem tempNameAux_not_mem :
    ∀ (n : Nat) (t : String) (cols : List String),
      cols.countP (fun c => decide (t.length ≤ c.length)) < n →
      tempNameAux n t cols ∉ cols := by
  intro n
  induction n with
  | zero => intro t cols h; omega
  | succ m ih =>
      intro t cols h
      by_cases ht : t ∈ cols
      · rw [tempNameAux, if_pos ht]
        apply ih
        have hstrict := countP_len_succ_lt t cols ht
        have hlen : (t ++ "_").length = t.length + 1 := by
          rw [String.length_append]
          rfl
        simp only [hlen]
        omega
      · rw [tempNameAux, if_neg ht]
        exact ht

theorem tempName_not_mem (cols : List String) : tempName cols ∉ cols := by
  apply tempNameAux_not_mem
  have h : cols.countP
      (fun c => decide (("__temp_name_for_swap__" : String).length ≤ c.length)) ≤ cols.length :=
    List.countP_le_length _
  omega

/-- Embedding of `FieldDataProcessor.rename_columns`: relabel `c1` to a fresh temporary
label, `c2` to `c1`, then the temporary label to `c2`.  Labels absent from the
dataset are ignored, as by pandas `DataFrame.rename` (default `errors`
behaviour); the data rows are untouched. -/
def rename_columns (c1 c2 : String) (df : DataFrame) : DataFrame :=
  ⟨(df.columns.map (fun c =>
      if c = c2 then c1 else if c = c1 then tempName df.columns else c)).map
    (fun c => if c = tempName df.columns then c2 else c),
   df.rows⟩

/-- The label permutation realised by a successful swap. -/
def swapNames (c1 c2 c : String) : String :=
  if c = c2 then c1 else if c = c1 then c2 else c

theorem swapNames_involutive (c1 c2 c : String) :
    swapNames c1 c2 (swapNames c1 c2 c) = c := by
  unfold swapNames
  by_cases e2 : c = c2
  · by_cases e12 : c1 = c2 <;> simp [e2, e12]
  · by_cases e1 : c = c1
    · by_cases e12 : c1 = c2 <;> simp [e1, e2, e12]
    · simp [e1, e2]

theorem rename_columns_eq_map (c1 c2 : String) (df : DataFrame)
    (h1 : c1 ∈ df.columns) (h2 : c2 ∈ df.columns) :
    rename_columns c1 c2 df = ⟨df.columns.map (swapNames c1 c2), df.rows⟩ := by
  have ht := tempName_not_mem df.columns
  have hc1t : c1 ≠ tempName df.columns := fun h => ht (h ▸ h1)
  unfold rename_columns
  congr 1
  rw [List.map_map]
  apply List.map_congr_left
  intro c hc
  have hct : c ≠ tempName df.columns := fun h => ht (h ▸ hc)
  simp only [Function.comp_apply, swapNames]
  by_cases e2 : c = c2
  · simp [e2, hc1t]
  · by_cases e1 : c = c1
    · have hc12 : ¬ c1 = c2 := fun h => e2 (e1.trans h)
      simp [e1, e2, hc12]
    · simp [e1, e2, hct]

/-- C4 (confirmed): for a dataset containing both configured swap columns,
applying `rename_columns` twice restores the original column-label-to-data
mapping (the swap is an involution). -/
theorem rename_columns_involution (c1 c2 : String) (df : DataFrame)
    (h1 : c1 ∈ df.columns) (h2 : c2 ∈ df.columns) :
    rename_columns c1 c2 (rename_columns c1 c2 df) = df := by
  rw [rename_columns_eq_map c1 c2 df h1 h2]
  have hs1 : swapNames c1 c2 c2 = c1 := by simp [swapNames]
  have hs2 : swapNames c1 c2 c1 = c2 := by
    unfold swapNames
    by_cases e : c1 = c2 <;> simp [e]
  have h1' : c1 ∈ df.columns.map (swapNames c1 c2) :=
    List.mem_map.mpr ⟨c2, h2, hs1⟩
  have h2' : c2 ∈ df.columns.map (swapNames c1 c2) :=
    List.mem_map.mpr ⟨c1, h1, hs2⟩
  rw [rename_columns_eq_map c1 c2 _ h1' h2']
  cases df with
  | mk cols rows =>
      simp only [List.map_map]
      congr 1
      have hpt : ∀ c ∈ cols, (swapNames c1 c2 ∘ swapNames c1 c2) c = id c := by
        intro c _
        simp [Function.comp_apply, swapNames_involutive]
      rw [List.map_congr_left hpt, List.map_id]

/-- Witness for C4 at a concrete dataset. -/
theorem rename_columns_involution_witness :
    "x" ∈ (DataFrame.mk ["x", "y"] [[Cell.num 1, Cell.num 2]]).columns ∧
    "y" ∈ (DataFrame.mk ["x", "y"] [[Cell.num 1, Cell.num 2]]).columns ∧
    rename_columns "x" "y"
        (rename_columns "x" "y" (DataFrame.mk ["x", "y"] [[Cell.num 1, Cell.num 2]]))
      = DataFrame.mk ["x", "y"] [[Cell.num 1, Cell.num 2]] :=
  ⟨by decide, by decide,
    rename_columns_involution "x" "y" (DataFrame.mk ["x", "y"] [[Cell.num 1, Cell.num 2]])
      (by decide) (by decide)⟩

/-- C1 (counterexample): with the configured swap name "a" absent from the
dataset, `rename_columns` completes silently — here relabeling the existing
column "x" to "a" — instead of failing with a MissingColumn error. -/
theorem rename_columns_missing_counterexample :
    rename_columns "a" "x" (DataFrame.mk ["x", "y"] [[Cell.num 1, Cell.num 2]])
      = DataFrame.mk ["a", "y"] [[Cell.num 1, Cell.num 2]] := by decide

/-- C1 (corrected): when either configured swap name is absent from the
dataset, `rename_columns` does not fail: the rows are untouched, and only the
relabelings whose source label is present apply — with the first name absent
(and distinct from the temporary label) only the second name, if present, is
relabeled to the first; with the second name absent and the first present, the
first is relabeled to the second. -/
theorem rename_columns_missing_silent (c1 c2 : String) (df : DataFrame) :
    (rename_columns c1 c2 df).rows = df.rows ∧
    (c1 ∉ df.columns → c1 ≠ tempName df.columns →
      (rename_columns c1 c2 df).columns
        = df.columns.map (fun c => if c = c2 then c1 else c)) ∧
    (c2 ∉ df.columns → c1 ∈ df.columns →
      (rename_columns c1 c2 df).columns
        = df.columns.map (fun c => if c = c1 then c2 else c)) := by
  refine ⟨rfl, ?_, ?_⟩
  · intro h1 ht
    unfold rename_columns
    dsimp only
    rw [List.map_map]
    apply List.map_congr_left
    intro c hc
    have hct : c ≠ tempName df.columns := fun h => tempName_not_mem df.columns (h ▸ hc)
    have hcc1 : c ≠ c1 := fun h => h1 (h ▸ hc)
    simp only [Function.comp_apply]
    by_cases e2 : c = c2
    · simp [e2, ht]
    · simp [e2, hcc1, hct]
  · intro h2 h1
    unfold rename_columns
    dsimp only
    rw [List.map_map]
    apply List.map_congr_left
    intro c hc
    have hct : c ≠ tempName df.columns := fun h => tempName_not_mem df.columns (h ▸ hc)
    have hcc2 : c ≠ c2 := fun h => h2 (h ▸ hc)
    simp only [Function.comp_apply]
    by_cases e1 : c = c1
    · have h12 : ¬ c1 = c2 := fun h => hcc2 (e1.trans h)
      simp [e1, h12]
    · simp [e1, hcc2, hct]

/-- Witness for the corrected C1: both missing-name cases at a concrete
dataset — with "a" absent, "x" is silently relabeled to "a"; with "b" absent,
"x" is silently relabeled to "b"; the rows are untouched throughout. -/
theorem rename_columns_missing_silent_witness :
    (rename_columns "a" "x" (DataFrame.mk ["x", "y"] [[Cell.str "u", Cell.str "v"]])).rows
      = [[Cell.str "u", Cell.str "v"]] ∧
    ("a" ∉ (DataFrame.mk ["x", "y"] [[Cell.str "u", Cell.str "v"]]).columns ∧
      "a" ≠ tempName (DataFrame.mk ["x", "y"] [[Cell.str "u", Cell.str "v"]]).columns ∧
      (rename_columns "a" "x" (DataFrame.mk ["x", "y"] [[Cell.str "u", Cell.str "v"]])).columns
        = ["a", "y"]) ∧
    ("b" ∉ (DataFrame.mk ["x", "y"] [[Cell.str "u", Cell.str "v"]]).columns ∧
      "x" ∈ (DataFrame.mk ["x", "y"] [[Cell.str "u", Cell.str "v"]]).columns ∧
      (rename_columns "x" "b" (DataFrame.mk ["x", "y"] [[Cell.str "u", Cell.str "v"]])).columns
        = ["b", "y"]) :=
  ⟨(rename_columns_missing_silent "a" "x"
      (DataFrame.mk ["x", "y"] [[Cell.str "u", Cell.str "v"]])).1,
   ⟨by decide, by decide,
     ((rename_columns_missing_silent "a" "x"
        (DataFrame.mk ["x", "y"] [[Cell.str "u", Cell.str "v"]])).2.1
        (by decide) (by decide)).trans (by decide)⟩,
   ⟨by decide, by decide,
     ((rename_columns_missing_silent "x" "b"
        (DataFrame.mk ["x", "y"] [[Cell.str "u", Cell.str "v"]])).2.2
        (by decide) (by decide)).trans (by decide)⟩⟩

/-- Replace the entry at a given index of a row, when in range. -/
def modifyAt (f : Cell → Cell) : Nat → List Cell → List Cell
  | _, [] => []
  | 0, c :: r => f c :: r
  | n + 1, c :: r => c :: modifyAt f n r

/-- Absolute value on a cell, as pandas `Series.abs` (null stays null). -/
def cellAbs : Cell → Cell
  | Cell.num q => Cell.num |q|
  | c => c

/-- Python `values_to_rename.get(crop, crop)` applied to a cell. -/
def renameValue (vmap : List (String × String)) : Cell → Cell
  | Cell.str s =>
      match vmap.lookup s with
      | some v => Cell.str v
      | Option.none => Cell.str s
  | c => c

/-- Embedding of `FieldDataProcessor.apply_corrections`: replace the elevation column by its
absolute values, then map the categorical column through the configured value
map; `none` (a KeyError) when a configured column is absent. -/
def apply_corrections (vmap : List (String × String)) (column_name abs_column : String)
    (df : DataFrame) : Option DataFrame :=
  match colIdx df.columns abs_column, colIdx df.columns column_name with
  | some i, some j =>
      some ⟨df.columns,
        (df.rows.map (modifyAt cellAbs i)).map (modifyAt (renameValue vmap) j)⟩
  | _, _ => Option.none

theorem colIdx_getD (cols : List String) (lbl : String) :
    ∀ k : Nat, colIdx cols lbl = some k → cols.getD k "" = lbl := by
  induction cols with
  | nil => intro k h; cases h
  | cons c rest ih =>
      intro k h
      unfold colIdx at h
      by_cases hc : c = lbl
      · rw [if_pos hc] at h
        cases h
        simpa using hc
      · rw [if_neg hc] at h
        cases hk : colIdx rest lbl with
        | none => rw [hk] at h; cases h
        | some m =>
            rw [hk] at h
            simp only [Option.map_some'] at h
            cases h
            simpa using ih m hk

theorem modifyAt_getD_ne (f : Cell → Cell) :
    ∀ (i k : Nat), i ≠ k → ∀ r : List Cell,
      (modifyAt f i r).getD k Cell.null = r.getD k Cell.null := by
  intro i
  induction i with
  | zero =>
      intro k hk r
      cases r with
      | nil => rfl
      | cons c t =>
          cases k with
          | zero => exact absurd rfl hk
          | succ m => simp [modifyAt]
  | succ n ih =>
      intro k hk r
      cases r with
      | nil => rfl
      | cons c t =>
          cases k with
          | zero => simp [modifyAt]
          | succ m =>
              have : n ≠ m := fun h => hk (by omega)
              simp only [modifyAt, List.getD_cons_succ]
              exact ih m this t

theorem modifyAt_getD_self (f : Cell → Cell) :
    ∀ (i : Nat) (r : List Cell),
      (modifyAt f i r).getD i Cell.null
        = if i < r.length then f (r.getD i Cell.null) else Cell.null := by
  intro i
  induction i with
  | zero =>
      intro r
      cases r with
      | nil => rfl
      | cons c t => simp [modifyAt]
  | succ n ih =>
      intro r
      cases r with
      | nil => rfl
      | cons c t =>
          simp only [modifyAt, List.getD_cons_succ, List.length_cons]
          rw [ih t]
          have : n + 1 < t.length + 1 ↔ n < t.length := by omega
          simp [this]

theorem modifyAt_length (f : Cell → Cell) :
    ∀ (i : Nat) (r : List Cell), (modifyAt f i r).length = r.length := by
  intro i
  induction i with
  | zero =>
      intro r
      cases r with
      | nil => rfl
      | cons c t => simp [modifyAt]
  | succ n ih =>
      intro r
      cases r with
      | nil => rfl
      | cons c t => simp [modifyAt, ih t]

theorem cellAbs_idem (c : Cell) : cellAbs (cellAbs c) = cellAbs c := by
  cases c <;> simp [cellAbs, abs_abs]

/-- C10 (confirmed): `apply_corrections` changes only the two configured
columns — the column labels, the row count, and every other column's values
are unchanged. -/
theorem apply_corrections_frame (vmap : List (String × String)) (cn ac : String)
    (df df' : DataFrame) (h : apply_corrections vmap cn ac df = some df') :
    df'.columns = df.columns ∧ df'.rows.length = df.rows.length ∧
      ∀ lbl : String, lbl ≠ cn → lbl ≠ ac → getCol df' lbl = getCol df lbl := by
  unfold apply_corrections at h
  cases hi : colIdx df.columns ac with
  | none => rw [hi] at h; cases h
  | some i =>
      cases hj : colIdx df.columns cn with
      | none => rw [hi, hj] at h; cases h
      | some j =>
          rw [hi, hj] at h
          simp only [Option.some.injEq] at h
          subst h
          refine ⟨rfl, by simp, ?_⟩
          intro lbl hcn hac
          unfold getCol
          cases hk : colIdx df.columns lbl with
          | none => simp [hk]
          | some k =>
              have hki : i ≠ k := fun e =>
                hac ((colIdx_getD df.columns lbl k hk) ▸ e ▸ colIdx_getD df.columns ac i hi)
              have hkj : j ≠ k := fun e =>
                hcn ((colIdx_getD df.columns lbl k hk) ▸ e ▸ colIdx_getD df.columns cn j hj)
              simp only [hk, Option.map_some', Option.some.injEq, List.map_map]
              apply List.map_congr_left
              intro r _
              simp only [Function.comp_apply]
              rw [modifyAt_getD_ne _ j k hkj, modifyAt_getD_ne _ i k hki]

/-- Witness for C10 at a concrete dataset. -/
theorem apply_corrections_frame_witness :
    apply_corrections [("Maize", "maize")] "Crop_type" "Elevation"
        (DataFrame.mk ["Field_ID", "Elevation", "Crop_type"]
          [[Cell.str "F1", Cell.num (-5), Cell.str "Maize"]])
      = some (DataFrame.mk ["Field_ID", "Elevation", "Crop_type"]
          [[Cell.str "F1", Cell.num 5, Cell.str "maize"]]) ∧
    (DataFrame.mk ["Field_ID", "Elevation", "Crop_type"]
        [[Cell.str "F1", Cell.num 5, Cell.str "maize"]]).columns
      = ["Field_ID", "Elevation", "Crop_type"] ∧
    getCol (DataFrame.mk ["Field_ID", "Elevation", "Crop_type"]
        [[Cell.str "F1", Cell.num 5, Cell.str "maize"]]) "Field_ID"
      = getCol (DataFrame.mk ["Field_ID", "Elevation", "Crop_type"]
        [[Cell.str "F1", Cell.num (-5), Cell.str "Maize"]]) "Field_ID" :=
  ⟨by decide, by decide,
    (apply_corrections_frame [("Maize", "maize")] "Crop_type" "Elevation"
        (DataFrame.mk ["Field_ID", "Elevation", "Crop_type"]
          [[Cell.str "F1", Cell.num (-5), Cell.str "Maize"]])
        (DataFrame.mk ["Field_ID", "Elevation", "Crop_type"]
          [[Cell.str "F1", Cell.num 5, Cell.str "maize"]])
        (by decide)).2.2 "Field_ID" (by decide) (by decide)⟩

theorem cellAbs_fix_null : cellAbs Cell.null = Cell.null := rfl

/-- C8 (confirmed): the elevation step of `apply_corrections` is idempotent —
after one application, a second application leaves the elevation column's
values unchanged (`abs` is idempotent). -/
theorem apply_corrections_abs_idem (vmap : List (String × String)) (cn ac : String)
    (hne : cn ≠ ac) (df df1 df2 : DataFrame)
    (h1 : apply_corrections vmap cn ac df = some df1)
    (h2 : apply_corrections vmap cn ac df1 = some df2) :
    getCol df2 ac = getCol df1 ac := by
  unfold apply_corrections at h1
  cases hi : colIdx df.columns ac with
  | none => rw [hi] at h1; cases h1
  | some i =>
      cases hj : colIdx df.columns cn with
      | none => rw [hi, hj] at h1; cases h1
      | some j =>
          rw [hi, hj] at h1
          simp only [Option.some.injEq] at h1
          subst h1
          have hji : j ≠ i := fun e => hne (by
            have ha := colIdx_getD df.columns ac i hi
            have hb := colIdx_getD df.columns cn j hj
            rw [← ha, ← hb, e])
          unfold apply_corrections at h2
          dsimp only at h2
          rw [hi, hj] at h2
          simp only [Option.some.injEq] at h2
          subst h2
          unfold getCol
          dsimp only
          rw [hi]
          simp only [Option.map_some', Option.some.injEq, List.map_map]
          apply List.map_congr_left
          intro r1 _
          simp only [Function.comp_apply]
          have hx : (modifyAt (renameValue vmap) j (modifyAt cellAbs i r1)).getD i Cell.null
              = if i < r1.length then cellAbs (r1.getD i Cell.null) else Cell.null := by
            rw [modifyAt_getD_ne _ j i hji, modifyAt_getD_self]
          have hxlen : (modifyAt (renameValue vmap) j (modifyAt cellAbs i r1)).length
              = r1.length := by
            rw [modifyAt_length, modifyAt_length]
          rw [modifyAt_getD_ne _ j i hji, modifyAt_getD_self, hxlen, hx]
          by_cases hl : i < r1.length
          · simp [hl, cellAbs_idem]
          · simp [hl]

/-- Witness for C8 at a concrete dataset. -/
theorem apply_corrections_abs_idem_witness :
    ("Crop_type" : String) ≠ "Elevation" ∧
    apply_corrections [("Maize", "maize")] "Crop_type" "Elevation"
        (DataFrame.mk ["Elevation", "Crop_type"] [[Cell.num (-7), Cell.str "Maize"]])
      = some (DataFrame.mk ["Elevation", "Crop_type"] [[Cell.num 7, Cell.str "maize"]]) ∧
    apply_corrections [("Maize", "maize")] "Crop_type" "Elevation"
        (DataFrame.mk ["Elevation", "Crop_type"] [[Cell.num 7, Cell.str "maize"]])
      = some (DataFrame.mk ["Elevation", "Crop_type"] [[Cell.num 7, Cell.str "maize"]]) ∧
    getCol (DataFrame.mk ["Elevation", "Crop_type"] [[Cell.num 7, Cell.str "maize"]]) "Elevation"
      = getCol (DataFrame.mk ["Elevation", "Crop_type"] [[Cell.num 7, Cell.str "maize"]])
          "Elevation" :=
  ⟨by decide, by decide, by decide,
    apply_corrections_abs_idem [("Maize", "maize")] "Crop_type" "Elevation" (by decide)
      (DataFrame.mk ["Elevation", "Crop_type"] [[Cell.num (-7), Cell.str "Maize"]])
      (DataFrame.mk ["Elevation", "Crop_type"] [[Cell.num 7, Cell.str "maize"]])
      (DataFrame.mk ["Elevation", "Crop_type"] [[Cell.num 7, Cell.str "maize"]])
      (by decide) (by decide)⟩

/-- Failures raised by the embedded Python code. -/
inductive PyError where
  | sourceUnavailable
  | emptyResult
  | keyError
  | noneTypeError
  | typeError
  | noGroup
  | malformed
  | unpackError
deriving DecidableEq, Repr

/-- Outcome of an external fetch (SQL read or pandas read_csv): a rectangular
dataset, or an adapter failure (any exception raised by the read itself). -/
inductive FetchResult where
  | ok (df : DataFrame)
  | failed
deriving DecidableEq, Repr

/-- pandas `DataFrame.empty`: an axis has length zero. -/
def dfEmpty (df : DataFrame) : Bool :=
  df.rows.isEmpty || df.columns.isEmpty

/-- Embedding of `data_ingestion.query_data`: propagate a read failure unchanged; raise
ValueError when the returned DataFrame is empty; otherwise return it. -/
def query_data : FetchResult → Except PyError DataFrame
  | FetchResult.failed => Except.error PyError.sourceUnavailable
  | FetchResult.ok df =>
      if dfEmpty df then Except.error PyError.emptyResult else Except.ok df

/-- Embedding of `data_ingestion.read_from_web_CSV`: propagate a read failure unchanged;
otherwise return the DataFrame — it performs no emptiness check. -/
def read_from_web_CSV : FetchResult → Except PyError DataFrame
  | FetchResult.failed => Except.error PyError.sourceUnavailable
  | FetchResult.ok df => Except.ok df

/-- Logging levels of the processors; NONE disables the instance logger. -/
inductive LogLevel where
  | DEBUG
  | INFO
  | NONE
deriving DecidableEq, Repr

/-- State of a `WeatherDataProcessor` instance: the held dataset, the
configured logging level, and the diagnostic messages emitted so far. -/
structure WeatherState where
  weather_df : Option DataFrame
  level : LogLevel
  log : List String
deriving DecidableEq, Repr

/-- Emit an info/warning-level message (visible unless logging is disabled). -/
def logInfoW (st : WeatherState) (msg : String) : WeatherState :=
  if st.level = LogLevel.NONE then st else { st with log := st.log ++ [msg] }

/-- Embedding of `WeatherDataProcessor.weather_station_mapping`: fetch the messages CSV
into `weather_df` (the pipeline's load step). -/
def weather_station_mapping_w (fetched : FetchResult) (st : WeatherState) :
    Except PyError WeatherState :=
  match read_from_web_CSV fetched with
  | Except.error e => Except.error e
  | Except.ok df =>
      Except.ok (logInfoW { st with weather_df := some df }
        "Successfully loaded weather station data from the web.")

/-- C3 (counterexample): a successfully fetched weather dataset with zero rows
is stored and returned as-is by the load step, while FieldPipeline's ingest
(`query_data`) fails with the EmptyResult error on the same fetch. -/
theorem weather_load_empty_counterexample :
    weather_station_mapping_w
        (FetchResult.ok (DataFrame.mk ["Weather_station_ID", "Message"] []))
        (WeatherState.mk Option.none LogLevel.INFO [])
      = Except.ok (WeatherState.mk
          (some (DataFrame.mk ["Weather_station_ID", "Message"] []))
          LogLevel.INFO
          ["Successfully loaded weather station data from the web."]) ∧
    query_data (FetchResult.ok (DataFrame.mk ["Weather_station_ID", "Message"] []))
      = Except.error PyError.emptyResult := by
  exact ⟨rfl, rfl⟩

/-- C3 (corrected): the weather load step raises only on adapter failure — a
successful fetch of a zero-row dataset is stored and returned unchanged,
whereas FieldPipeline's ingest (`query_data`) raises the EmptyResult error on
that same empty fetch. -/
theorem weather_load_returns_empty_dataset (df : DataFrame) (st : WeatherState)
    (h : dfEmpty df = true) :
    (∃ st' : WeatherState,
        weather_station_mapping_w (FetchResult.ok df) st = Except.ok st' ∧
          st'.weather_df = some df) ∧
    query_data (FetchResult.ok df) = Except.error PyError.emptyResult := by
  constructor
  · refine ⟨logInfoW { st with weather_df := some df }
      "Successfully loaded weather station data from the web.", rfl, ?_⟩
    unfold logInfoW
    split <;> rfl
  · simp [query_data, h]

/-- Witness for the corrected C3 at a concrete empty fetch. -/
theorem weather_load_returns_empty_dataset_witness :
    dfEmpty (DataFrame.mk ["Weather_station_ID", "Message"] []) = true ∧
    ((∃ st' : WeatherState,
        weather_station_mapping_w
            (FetchResult.ok (DataFrame.mk ["Weather_station_ID", "Message"] []))
            (WeatherState.mk Option.none LogLevel.NONE [])
          = Except.ok st' ∧
          st'.weather_df = some (DataFrame.mk ["Weather_station_ID", "Message"] [])) ∧
      query_data (FetchResult.ok (DataFrame.mk ["Weather_station_ID", "Message"] []))
        = Except.error PyError.emptyResult) :=
  ⟨by decide,
    weather_load_returns_empty_dataset (DataFrame.mk ["Weather_station_ID", "Message"] [])
      (WeatherState.mk Option.none LogLevel.NONE []) (by decide)⟩

/-- Concatenation of the per-left-row match lists of an inner merge. -/
def joinRows (f : List Cell → List (List Cell)) : List (List Cell) → List (List Cell)
  | [] => []
  | l :: rest => f l ++ joinRows f rest

/-- pandas `DataFrame.merge` with `on` a single key column (inner join): for
each left row in order, emit it extended by the non-key cells of every right
row carrying an equal key value; `none` (a KeyError) when the key column is
absent from either side. -/
def merge (key : String) (left right : DataFrame) : Option DataFrame :=
  match colIdx left.columns key, colIdx right.columns key with
  | some i, some j =>
      some ⟨left.columns ++ right.columns.eraseIdx j,
        joinRows (fun l =>
          (right.rows.filter
              (fun r => decide (r.getD j Cell.null = l.getD i Cell.null))).map
            (fun r => l ++ r.eraseIdx j)) left.rows⟩
  | _, _ => Option.none

/-- Embedding of `FieldDataProcessor.weather_station_mapping`, its join step: inner-merge
the held dataset with the fetched mapping dataset on Field_ID. -/
def field_weather_station_mapping (df mapping_df : DataFrame) : Option DataFrame :=
  merge "Field_ID" df mapping_df

theorem filter_key_nil (keyf : List Cell → Cell) (k : Cell) :
    ∀ rows : List (List Cell), k ∉ rows.map keyf →
      rows.filter (fun r => decide (keyf r = k)) = [] := by
  intro rows
  induction rows with
  | nil => intro _; rfl
  | cons r rest ih =>
      intro h
      simp only [List.map_cons, List.mem_cons] at h
      push_neg at h
      have hne : ¬ keyf r = k := fun e => h.1 e.symm
      simp only [List.filter_cons, hne, decide_False]
      exact ih h.2

theorem filter_key_singleton (keyf : List Cell → Cell) (k : Cell) :
    ∀ rows : List (List Cell), (rows.map keyf).Nodup → k ∈ rows.map keyf →
      ∃ r0, rows.filter (fun r => decide (keyf r = k)) = [r0] := by
  intro rows
  induction rows with
  | nil => intro _ h; cases h
  | cons r rest ih =>
      intro hnd hmem
      simp only [List.map_cons, List.nodup_cons] at hnd
      by_cases hk : keyf r = k
      · refine ⟨r, ?_⟩
        have hnot : k ∉ rest.map keyf := hk ▸ hnd.1
        simp only [List.filter_cons, hk, decide_True]
        rw [filter_key_nil keyf k rest hnot]
        simp
      · have hmem' : k ∈ rest.map keyf := by
          simp only [List.map_cons, List.mem_cons] at hmem
          rcases hmem with h1 | h2
          · exact absurd h1.symm hk
          · exact h2
        rcases ih hnd.2 hmem' with ⟨r0, hr0⟩
        refine ⟨r0, ?_⟩
        simp only [List.filter_cons, hk, decide_False]
        exact hr0

theorem joinRows_take (right : DataFrame) (i j : Nat) (n : Nat)
    (hkeyed : (right.rows.map (fun r => r.getD j Cell.null)).Nodup) :
    ∀ ls : List (List Cell), (∀ l ∈ ls, l.length = n) →
      (joinRows (fun l =>
          (right.rows.filter
              (fun r => decide (r.getD j Cell.null = l.getD i Cell.null))).map
            (fun r => l ++ r.eraseIdx j)) ls).map (fun r => r.take n)
        = ls.filter (fun l =>
            decide (l.getD i Cell.null ∈ right.rows.map (fun r => r.getD j Cell.null))) := by
  intro ls
  induction ls with
  | nil => intro _; rfl
  | cons l rest ih =>
      intro hlen
      have hlrest : ∀ l' ∈ rest, l'.length = n := fun l' h => hlen l' (List.mem_cons_of_mem l h)
      have hl : l.length = n := hlen l (List.mem_cons_self l rest)
      simp only [joinRows, List.map_append, List.filter_cons]
      by_cases hmem : l.getD i Cell.null ∈ right.rows.map (fun r => r.getD j Cell.null)
      · rcases filter_key_singleton (fun r => r.getD j Cell.null) (l.getD i Cell.null)
          right.rows hkeyed hmem with ⟨r0, hr0⟩
        rw [hr0]
        simp only [List.map_cons, List.map_nil, hmem, decide_True, List.singleton_append]
        have htake : (l ++ r0.eraseIdx j).take n = l := by
          rw [← hl]
          exact List.take_left l (r0.eraseIdx j)
        rw [htake, ih hlrest]
        simp
      · rw [filter_key_nil (fun r => r.getD j Cell.null) (l.getD i Cell.null) right.rows hmem]
        simp only [List.map_nil, List.nil_append, hmem, decide_False]
        exact ih hlrest

/-- C6 (confirmed): for a rectangular field dataset and a mapping dataset
keyed by Field_ID, the weather-station join succeeds and keeps exactly the
field rows whose Field_ID occurs in the mapping dataset — unmatched rows are
dropped without an error, and the result row count equals the number of
matched field rows. -/
theorem weather_station_mapping_inner_join (df mapping : DataFrame) (i j : Nat)
    (hi : colIdx df.columns "Field_ID" = some i)
    (hj : colIdx mapping.columns "Field_ID" = some j)
    (hkeyed : (mapping.rows.map (fun r => r.getD j Cell.null)).Nodup)
    (hrect : ∀ r ∈ df.rows, r.length = df.columns.length) :
    ∃ m : DataFrame,
      field_weather_station_mapping df mapping = some m ∧
      m.rows.map (fun r => r.take df.columns.length)
        = df.rows.filter (fun l =>
            decide (l.getD i Cell.null ∈ mapping.rows.map (fun r => r.getD j Cell.null))) ∧
      m.rows.length
        = (df.rows.filter (fun l =>
            decide (l.getD i Cell.null ∈ mapping.rows.map (fun r => r.getD j Cell.null)))).length := by
  unfold field_weather_station_mapping merge
  rw [hi, hj]
  have hmain := joinRows_take mapping i j df.columns.length hkeyed df.rows hrect
  refine ⟨_, rfl, hmain, ?_⟩
  rw [← hmain]
  simp

/-- Witness for C6 at a concrete pair of datasets: the field row "F1" has no
mapping entry and is dropped; the matched row count is 1. -/
theorem weather_station_mapping_inner_join_witness :
    colIdx (DataFrame.mk ["Field_ID", "Elevation"]
        [[Cell.str "F1", Cell.num 5], [Cell.str "F2", Cell.num 10]]).columns "Field_ID"
      = some 0 ∧
    colIdx (DataFrame.mk ["Field_ID", "Weather_station_ID"]
        [[Cell.str "F2", Cell.str "S2"]]).columns "Field_ID" = some 0 ∧
    ((DataFrame.mk ["Field_ID", "Weather_station_ID"]
        [[Cell.str "F2", Cell.str "S2"]]).rows.map (fun r => r.getD 0 Cell.null)).Nodup ∧
    (∀ r ∈ (DataFrame.mk ["Field_ID", "Elevation"]
        [[Cell.str "F1", Cell.num 5], [Cell.str "F2", Cell.num 10]]).rows,
      r.length = (DataFrame.mk ["Field_ID", "Elevation"]
        [[Cell.str "F1", Cell.num 5], [Cell.str "F2", Cell.num 10]]).columns.length) ∧
    (∃ m : DataFrame,
      field_weather_station_mapping
          (DataFrame.mk ["Field_ID", "Elevation"]
            [[Cell.str "F1", Cell.num 5], [Cell.str "F2", Cell.num 10]])
          (DataFrame.mk ["Field_ID", "Weather_station_ID"]
            [[Cell.str "F2", Cell.str "S2"]])
        = some m ∧
      m.rows.map (fun r => r.take (DataFrame.mk ["Field_ID", "Elevation"]
          [[Cell.str "F1", Cell.num 5], [Cell.str "F2", Cell.num 10]]).columns.length)
        = (DataFrame.mk ["Field_ID", "Elevation"]
            [[Cell.str "F1", Cell.num 5], [Cell.str "F2", Cell.num 10]]).rows.filter
            (fun l => decide (l.getD 0 Cell.null ∈
              (DataFrame.mk ["Field_ID", "Weather_station_ID"]
                [[Cell.str "F2", Cell.str "S2"]]).rows.map (fun r => r.getD 0 Cell.null))) ∧
      m.rows.length
        = ((DataFrame.mk ["Field_ID", "Elevation"]
            [[Cell.str "F1", Cell.num 5], [Cell.str "F2", Cell.num 10]]).rows.filter
            (fun l => decide (l.getD 0 Cell.null ∈
              (DataFrame.mk ["Field_ID", "Weather_station_ID"]
                [[Cell.str "F2", Cell.str "S2"]]).rows.map
                  (fun r => r.getD 0 Cell.null)))).length) :=
  ⟨by decide, by decide, by decide, by decide,
    weather_station_mapping_inner_join
      (DataFrame.mk ["Field_ID", "Elevation"]
        [[Cell.str "F1", Cell.num 5], [Cell.str "F2", Cell.num 10]])
      (DataFrame.mk ["Field_ID", "Weather_station_ID"] [[Cell.str "F2", Cell.str "S2"]])
      0 0 (by decide) (by decide) (by decide) (by decide)⟩

/-- A configured measurement pattern, as the behaviour of its compiled regular
expression: for a message, `some` the list of capturing groups of the first
match found by re.search, or `none` when the pattern does not match. -/
abbrev Pattern := String → Option (List (Option String))

/-- Python next(x for x in match.groups() if x is not None). -/
def firstSome : List (Option String) → Option String
  | [] => Option.none
  | some x :: _ => some x
  | Option.none :: rest => firstSome rest

/-- Embedding of `WeatherDataProcessor.extract_measurement`, with Python's float parser as a
parameter: try each configured pattern in order; on the first match return
(key, float(first non-null group)) — StopIteration (noGroup) when the match
has no non-null group, ValueError (malformed) when the captured text does not
parse as a float; (None, None) when no pattern matches. -/
def extract_measurement (pyFloat : String → Option Rat) :
    List (String × Pattern) → String → Except PyError (Option String × Option Rat)
  | [], _ => Except.ok (Option.none, Option.none)
  | (key, pat) :: rest, message =>
      match pat message with
      | some groups =>
          match firstSome groups with
          | Option.none => Except.error PyError.noGroup
          | some txt =>
              match pyFloat txt with
              | Option.none => Except.error PyError.malformed
              | some v => Except.ok (some key, some v)
      | Option.none => extract_measurement pyFloat rest message

/-- C5 (confirmed): `extract_measurement` returns the label of the first
pattern in configuration order that matches the message, paired with the
parsed float of the match's first non-null capturing group — patterns listed
later are never consulted, so when two patterns both match, the first listed
wins. -/
theorem extract_measurement_first_match (pyFloat : String → Option Rat)
    (pre post : List (String × Pattern)) (key : String) (pat : Pattern)
    (message txt : String) (groups : List (Option String)) (v : Rat)
    (hpre : ∀ kp ∈ pre, kp.2 message = Option.none)
    (hmatch : pat message = some groups)
    (hgroup : firstSome groups = some txt)
    (hfloat : pyFloat txt = some v) :
    extract_measurement pyFloat (pre ++ (key, pat) :: post) message
      = Except.ok (some key, some v) := by
  induction pre with
  | nil =>
      simp only [List.nil_append, extract_measurement, hmatch, hgroup, hfloat]
  | cons kp rest ih =>
      have hrest : ∀ kp' ∈ rest, kp'.2 message = Option.none :=
        fun kp' h => hpre kp' (List.mem_cons_of_mem kp h)
      cases kp with
      | mk k p =>
          have hp : p message = Option.none := hpre (k, p) (List.mem_cons_self (k, p) rest)
          simp only [List.cons_append, extract_measurement, hp]
          exact ih hrest

/-- Witness for C5 on a deliberately ambiguous message matched by both
configured patterns: the first-listed label wins. -/
theorem extract_measurement_first_match_witness :
    (∀ kp ∈ ([] : List (String × Pattern)), kp.2 "10mm 20C" = Option.none) ∧
    (fun m => if m = "10mm 20C" then some [some "10"] else (Option.none :
        Option (List (Option String)))) "10mm 20C" = some [some "10"] ∧
    firstSome [some "10"] = some "10" ∧
    (fun s => if s = "10" then some (10 : Rat) else
        if s = "20" then some (20 : Rat) else Option.none) "10" = some (10 : Rat) ∧
    extract_measurement
        (fun s => if s = "10" then some (10 : Rat) else
          if s = "20" then some (20 : Rat) else Option.none)
        ([] ++ ("rainfall", fun m => if m = "10mm 20C" then some [some "10"] else
            (Option.none : Option (List (Option String)))) ::
          [("temperature", fun m => if m = "10mm 20C" then some [some "20"] else
            (Option.none : Option (List (Option String))))])
        "10mm 20C"
      = Except.ok (some "rainfall", some (10 : Rat)) :=
  ⟨by simp, by simp, rfl, by simp,
    extract_measurement_first_match
      (fun s => if s = "10" then some (10 : Rat) else
        if s = "20" then some (20 : Rat) else Option.none)
      []
      [("temperature", fun m => if m = "10mm 20C" then some [some "20"] else
        (Option.none : Option (List (Option String))))]
      "rainfall"
      (fun m => if m = "10mm 20C" then some [some "10"] else
        (Option.none : Option (List (Option String))))
      "10mm 20C" "10" [some "10"] 10
      (by simp) (by simp) rfl (by simp)⟩

/-- The key pairs (station, measurement) of pandas groupby in first-occurrence
order; rows with a null in either key are dropped (groupby default dropna). -/
def groupKeys (df : DataFrame) (si mi : Nat) : List (Cell × Cell) :=
  ((df.rows.map (fun r => (r.getD si Cell.null, r.getD mi Cell.null))).filter
    (fun k => decide (k.1 ≠ Cell.null ∧ k.2 ≠ Cell.null))).dedup

/-- The groups of `calculate_means`: each retained key pair together with the
rows aggregated under it. -/
def meansGroups (df : DataFrame) (si mi : Nat) :
    List ((Cell × Cell) × List (List Cell)) :=
  (groupKeys df si mi).map (fun k =>
    (k, df.rows.filter (fun r =>
      decide (r.getD si Cell.null = k.1 ∧ r.getD mi Cell.null = k.2))))

/-- Arithmetic mean of the numeric cells, skipping nulls (pandas mean). -/
def cellMean (cells : List Cell) : Cell :=
  match cells.filterMap (fun c => match c with | Cell.num q => some q | _ => Option.none) with
  | [] => Cell.null
  | q :: qs =>
      Cell.num (((q :: qs).foldl (· + ·) 0) / (((q :: qs).length : Nat) : Rat))

theorem extract_no_match_aux (pyFloat : String → Option Rat) (message : String) :
    ∀ ps : List (String × Pattern), (∀ kp ∈ ps, kp.2 message = Option.none) →
      extract_measurement pyFloat ps message
        = Except.ok (Option.none, Option.none) := by
  intro ps
  induction ps with
  | nil => intro _; rfl
  | cons kp rest ih =>
      intro h
      cases kp with
      | mk k p =>
          have hp : p message = Option.none := h (k, p) (List.mem_cons_self (k, p) rest)
          simp only [extract_measurement, hp]
          exact ih (fun kp' h' => h kp' (List.mem_cons_of_mem (k, p) h'))

/-- C7 (confirmed): a message matching no configured pattern yields
(None, None) without an error, and a row whose Measurement cell is null
belongs to no (station, measurement) group formed by `calculate_means`. -/
theorem extract_unmatched_null_and_ungrouped (pyFloat : String → Option Rat)
    (ps : List (String × Pattern)) (message : String)
    (h : ∀ kp ∈ ps, kp.2 message = Option.none) :
    extract_measurement pyFloat ps message = Except.ok (Option.none, Option.none) ∧
    ∀ (df : DataFrame) (si mi : Nat) (r : List Cell)
      (g : (Cell × Cell) × List (List Cell)),
      r.getD mi Cell.null = Cell.null → g ∈ meansGroups df si mi → r ∉ g.2 := by
  refine ⟨extract_no_match_aux pyFloat message ps h, ?_⟩
  intro df si mi r g hnull hg hrin
  rcases List.mem_map.mp hg with ⟨k, hk, rfl⟩
  have hmatch := (List.mem_filter.mp hrin).2
  rw [decide_eq_true_eq] at hmatch
  have hkmem := List.mem_dedup.mp hk
  have hkfil := (List.mem_filter.mp hkmem).2
  rw [decide_eq_true_eq] at hkfil
  exact hkfil.2 (hmatch.2.symm.trans hnull)

/-- Witness for C7: an unmatched message yields (None, None), and the
null-measurement row of a concrete dataset is in no group. -/
theorem extract_unmatched_null_and_ungrouped_witness :
    (∀ kp ∈ ([("rain", fun m => if m = "42mm" then some [some "42"] else
        Option.none)] : List (String × Pattern)), kp.2 "hello" = Option.none) ∧
    extract_measurement (fun _ => (Option.none : Option Rat))
        ([("rain", fun m => if m = "42mm" then some [some "42"] else
          Option.none)] : List (String × Pattern)) "hello"
      = Except.ok (Option.none, Option.none) ∧
    [Cell.str "S1", Cell.str "hello", Cell.null, Cell.null] ∉
      (((Cell.str "S1", Cell.str "rain"),
        [[Cell.str "S1", Cell.str "42mm", Cell.str "rain", Cell.num 42]]) :
          (Cell × Cell) × List (List Cell)).2 :=
  ⟨by simp,
    (extract_unmatched_null_and_ungrouped (fun _ => (Option.none : Option Rat))
      ([("rain", fun m => if m = "42mm" then some [some "42"] else
        Option.none)] : List (String × Pattern)) "hello" (by simp)).1,
    (extract_unmatched_null_and_ungrouped (fun _ => (Option.none : Option Rat))
      ([("rain", fun m => if m = "42mm" then some [some "42"] else
        Option.none)] : List (String × Pattern)) "hello" (by simp)).2
      (DataFrame.mk ["Weather_station_ID", "Message", "Measurement", "Value"]
        [[Cell.str "S1", Cell.str "42mm", Cell.str "rain", Cell.num 42],
         [Cell.str "S1", Cell.str "hello", Cell.null, Cell.null]])
      0 2
      [Cell.str "S1", Cell.str "hello", Cell.null, Cell.null]
      ((Cell.str "S1", Cell.str "rain"),
        [[Cell.str "S1", Cell.str "42mm", Cell.str "rain", Cell.num 42]])
      (by decide) (by decide)⟩

/-- The Measurement cell of an extracted label. -/
def optCellStr : Option String → Cell
  | some s => Cell.str s
  | Option.none => Cell.null

/-- The Value cell of an extracted number. -/
def optCellNum : Option Rat → Cell
  | some q => Cell.num q
  | Option.none => Cell.null

/-- pandas column assignment: replace the column when the label exists,
otherwise append it on the right. -/
def setColumn (df : DataFrame) (lbl : String) (vals : List Cell) : DataFrame :=
  match colIdx df.columns lbl with
  | some i => ⟨df.columns, List.zipWith (fun r v => r.set i v) df.rows vals⟩
  | Option.none => ⟨df.columns ++ [lbl], List.zipWith (fun r v => r ++ [v]) df.rows vals⟩

/-- Apply `extract_measurement` to the message cell of every row in order
(re.search applied to a non-string cell raises TypeError). -/
def extractAll (pyFloat : String → Option Rat) (patterns : List (String × Pattern))
    (mi : Nat) : List (List Cell) → Except PyError (List (Option String × Option Rat))
  | [] => Except.ok []
  | r :: rest =>
      match r.getD mi Cell.null with
      | Cell.str s =>
          match extract_measurement pyFloat patterns s with
          | Except.error e => Except.error e
          | Except.ok p =>
              match extractAll pyFloat patterns mi rest with
              | Except.error e => Except.error e
              | Except.ok ps => Except.ok (p :: ps)
      | _ => Except.error PyError.typeError

/-- Embedding of `WeatherDataProcessor.process_messages`: extract a measurement from every
row's Message and attach the Measurement and Value columns; unpacking
zip(*result) into the two columns raises ValueError when the dataset has zero
rows; when no dataset is held, only a warning is logged.  Per-row logger.debug
diagnostics are not tracked. -/
def process_messages_w (pyFloat : String → Option Rat)
    (patterns : List (String × Pattern)) (st : WeatherState) :
    Except PyError WeatherState :=
  match st.weather_df with
  | Option.none =>
      Except.ok (logInfoW st "weather_df is not initialized, skipping message processing.")
  | some df =>
      match colIdx df.columns "Message" with
      | Option.none => Except.error PyError.keyError
      | some mi =>
          match extractAll pyFloat patterns mi df.rows with
          | Except.error e => Except.error e
          | Except.ok [] => Except.error PyError.unpackError
          | Except.ok results =>
              Except.ok (logInfoW { st with weather_df := some (setColumn (setColumn df "Measurement" (results.map (fun p => optCellStr p.1))) "Value" (results.map (fun p => optCellNum p.2))) } "Messages processed and measurements extracted.")

/-- Embedding of `WeatherDataProcessor.calculate_means`: group the held dataset by
(Weather_station_ID, Measurement) and take the mean of Value per group; a
warning and no table when no dataset is held.  The final unstack only
reshapes this keyed table and is not modelled further. -/
def calculate_means (st : WeatherState) :
    Except PyError (WeatherState × Option (List ((Cell × Cell) × Cell))) :=
  match st.weather_df with
  | Option.none =>
      Except.ok (logInfoW st "weather_df is not initialized, cannot calculate means.",
        Option.none)
  | some df =>
      match colIdx df.columns "Weather_station_ID", colIdx df.columns "Measurement",
          colIdx df.columns "Value" with
      | some si, some mi, some vi =>
          Except.ok (logInfoW st "Mean values calculated.",
            some ((meansGroups df si mi).map (fun g =>
              (g.1, cellMean (g.2.map (fun r => r.getD vi Cell.null))))))
      | _, _, _ => Except.error PyError.keyError

/-- Sequencing of pipeline steps: a raised error propagates to the caller and
abandons the remaining steps. -/
def pyBind {α : Type} (x : Except PyError α) (f : α → Except PyError α) :
    Except PyError α :=
  match x with
  | Except.error e => Except.error e
  | Except.ok s => f s

/-- Embedding of `WeatherDataProcessor.process`: load the messages, extract measurements,
log completion, and return the held per-message dataset.  The body calls only
`weather_station_mapping` and `process_messages`. -/
def weather_process (pyFloat : String → Option Rat)
    (patterns : List (String × Pattern)) (fetched : FetchResult) (st : WeatherState) :
    Except PyError WeatherState :=
  pyBind (weather_station_mapping_w fetched st) (fun st1 =>
    pyBind (process_messages_w pyFloat patterns st1) (fun st2 =>
      Except.ok (logInfoW st2 "Data processing completed.")))

theorem logInfoW_weather_df (st : WeatherState) (m : String) :
    (logInfoW st m).weather_df = st.weather_df := by
  unfold logInfoW
  split <;> rfl

theorem logInfoW_log_mem (st : WeatherState) (m x : String)
    (hx : x ∉ st.log) (hm : x ≠ m) : x ∉ (logInfoW st m).log := by
  unfold logInfoW
  split
  · exact hx
  · simp [hx, hm]

theorem process_messages_w_ok (pyFloat : String → Option Rat)
    (patterns : List (String × Pattern)) (st : WeatherState) (df : DataFrame)
    (mi : Nat) (results : List (Option String × Option Rat))
    (hdf : st.weather_df = some df)
    (hmi : colIdx df.columns "Message" = some mi)
    (hex : extractAll pyFloat patterns mi df.rows = Except.ok results)
    (hne : results ≠ []) :
    process_messages_w pyFloat patterns st
      = Except.ok (logInfoW { st with weather_df := some (setColumn (setColumn df "Measurement" (results.map (fun p => optCellStr p.1))) "Value" (results.map (fun p => optCellNum p.2))) } "Messages processed and measurements extracted.") := by
  cases results with
  | nil => exact absurd rfl hne
  | cons p ps =>
      unfold process_messages_w
      rw [hdf]
      dsimp only
      rw [hmi]
      dsimp only
      rw [hex]

/-- C2 (counterexample): at INFO level, a concrete `process` run completes
with the per-message dataset and its log lacks "Mean values calculated." —
yet running `calculate_means` on the resulting state does emit that message
and produce a table, so the aggregation step was not run by `process`. -/
theorem weather_process_no_means_counterexample :
    weather_process
        (fun s => if s = "10" then some (10 : Rat) else Option.none)
        ([("rain", fun m => if m = "10mm" then some [some "10"] else
          Option.none)] : List (String × Pattern))
        (FetchResult.ok (DataFrame.mk ["Weather_station_ID", "Message"]
          [[Cell.str "S1", Cell.str "10mm"]]))
        (WeatherState.mk Option.none LogLevel.INFO [])
      = Except.ok (WeatherState.mk
          (some (DataFrame.mk ["Weather_station_ID", "Message", "Measurement", "Value"]
            [[Cell.str "S1", Cell.str "10mm", Cell.str "rain", Cell.num 10]]))
          LogLevel.INFO
          ["Successfully loaded weather station data from the web.",
           "Messages processed and measurements extracted.",
           "Data processing completed."]) ∧
    "Mean values calculated." ∉
      ["Successfully loaded weather station data from the web.",
       "Messages processed and measurements extracted.",
       "Data processing completed."] ∧
    (calculate_means (WeatherState.mk
          (some (DataFrame.mk ["Weather_station_ID", "Message", "Measurement", "Value"]
            [[Cell.str "S1", Cell.str "10mm", Cell.str "rain", Cell.num 10]]))
          LogLevel.INFO
          ["Successfully loaded weather station data from the web.",
           "Messages processed and measurements extracted.",
           "Data processing completed."])).map (fun p => (p.1.log, p.2.isSome))
      = Except.ok
          (["Successfully loaded weather station data from the web.",
            "Messages processed and measurements extracted.",
            "Data processing completed.",
            "Mean values calculated."], true) :=
  ⟨rfl, by decide, rfl⟩

/-- C2 (corrected): `process` runs the load step and then the per-message
extraction step only; whenever extraction yields at least one row (on a
zero-row dataset `process_messages` instead raises ValueError at the zip
unpacking), it returns the per-message dataset (the held dataset with the two
extracted columns); the means-aggregation step is not invoked — no run of
`process` ever logs the calculate_means message. -/
theorem weather_process_no_aggregation (pyFloat : String → Option Rat)
    (patterns : List (String × Pattern)) (df : DataFrame) (st : WeatherState)
    (mi : Nat) (results : List (Option String × Option Rat))
    (hmi : colIdx df.columns "Message" = some mi)
    (hex : extractAll pyFloat patterns mi df.rows = Except.ok results)
    (hne : results ≠ [])
    (hlog : "Mean values calculated." ∉ st.log) :
    ∃ st' : WeatherState,
      weather_process pyFloat patterns (FetchResult.ok df) st = Except.ok st' ∧
      st'.weather_df = some (setColumn (setColumn df "Measurement"
          (results.map (fun p => optCellStr p.1))) "Value"
          (results.map (fun p => optCellNum p.2))) ∧
      "Mean values calculated." ∉ st'.log := by
  have h1 : weather_station_mapping_w (FetchResult.ok df) st
      = Except.ok (logInfoW { st with weather_df := some df }
          "Successfully loaded weather station data from the web.") := rfl
  have hdf : (logInfoW { st with weather_df := some df }
      "Successfully loaded weather station data from the web.").weather_df = some df := by
    rw [logInfoW_weather_df]
  have h2 := process_messages_w_ok pyFloat patterns
    (logInfoW { st with weather_df := some df }
      "Successfully loaded weather station data from the web.")
    df mi results hdf hmi hex hne
  unfold weather_process pyBind
  rw [h1]
  dsimp only
  rw [h2]
  dsimp only
  refine ⟨_, rfl, ?_, ?_⟩
  · rw [logInfoW_weather_df, logInfoW_weather_df]
  · apply logInfoW_log_mem
    · apply logInfoW_log_mem
      · apply logInfoW_log_mem
        · exact hlog
        · decide
      · decide
    · decide

/-- Witness for the corrected C2 at a concrete run. -/
theorem weather_process_no_aggregation_witness :
    colIdx (DataFrame.mk ["Weather_station_ID", "Message"]
        [[Cell.str "S2", Cell.str "10mm"]]).columns "Message" = some 1 ∧
    extractAll (fun s => if s = "10" then some (10 : Rat) else Option.none)
        ([("rain", fun m => if m = "10mm" then some [some "10"] else
          Option.none)] : List (String × Pattern)) 1
        (DataFrame.mk ["Weather_station_ID", "Message"]
          [[Cell.str "S2", Cell.str "10mm"]]).rows
      = Except.ok [(some "rain", some (10 : Rat))] ∧
    ([(some "rain", some (10 : Rat))] : List (Option String × Option Rat)) ≠ [] ∧
    "Mean values calculated." ∉ (WeatherState.mk Option.none LogLevel.DEBUG []).log ∧
    (∃ st' : WeatherState,
      weather_process (fun s => if s = "10" then some (10 : Rat) else Option.none)
          ([("rain", fun m => if m = "10mm" then some [some "10"] else
            Option.none)] : List (String × Pattern))
          (FetchResult.ok (DataFrame.mk ["Weather_station_ID", "Message"]
            [[Cell.str "S2", Cell.str "10mm"]]))
          (WeatherState.mk Option.none LogLevel.DEBUG [])
        = Except.ok st' ∧
      st'.weather_df = some (setColumn (setColumn
          (DataFrame.mk ["Weather_station_ID", "Message"]
            [[Cell.str "S2", Cell.str "10mm"]]) "Measurement"
          ([(some "rain", some (10 : Rat))].map (fun p => optCellStr p.1))) "Value"
          ([(some "rain", some (10 : Rat))].map (fun p => optCellNum p.2))) ∧
      "Mean values calculated." ∉ st'.log) :=
  ⟨by decide, rfl, by decide, by decide,
    weather_process_no_aggregation
      (fun s => if s = "10" then some (10 : Rat) else Option.none)
      ([("rain", fun m => if m = "10mm" then some [some "10"] else
        Option.none)] : List (String × Pattern))
      (DataFrame.mk ["Weather_station_ID", "Message"] [[Cell.str "S2", Cell.str "10mm"]])
      (WeatherState.mk Option.none LogLevel.DEBUG [])
      1 [(some "rain", some (10 : Rat))]
      (by decide) rfl (by decide) (by decide)⟩

/-- State of a `FieldDataProcessor` instance: the held dataset, the configured
logging level, and the diagnostic messages emitted so far. -/
structure FieldState where
  df : Option DataFrame
  level : LogLevel
  log : List String
deriving DecidableEq, Repr

/-- Emit an info-level message on the field logger (visible unless logging is
disabled). -/
def logInfoF (st : FieldState) (msg : String) : FieldState :=
  if st.level = LogLevel.NONE then st else { st with log := st.log ++ [msg] }

/-- Embedding of `FieldDataProcessor.ingest_sql_data`: run the configured query through
`query_data` and hold the result. -/
def ingest_sql_data (sqlRes : FetchResult) (st : FieldState) :
    Except PyError FieldState :=
  match query_data sqlRes with
  | Except.error e => Except.error e
  | Except.ok df => Except.ok (logInfoF { st with df := some df } "Successfully loaded data.")

/-- Embedding of `FieldDataProcessor.rename_columns` as a pipeline step on the instance
state (an AttributeError when no dataset is held yet). -/
def rename_columns_step (c1 c2 : String) (st : FieldState) :
    Except PyError FieldState :=
  match st.df with
  | Option.none => Except.error PyError.noneTypeError
  | some df =>
      Except.ok (logInfoF { st with df := some (rename_columns c1 c2 df) }
        ("Swapped columns: " ++ c1 ++ " with " ++ c2))

/-- Embedding of `FieldDataProcessor.apply_corrections` as a pipeline step, with its
default column arguments as used by `process`. -/
def apply_corrections_step (vmap : List (String × String)) (st : FieldState) :
    Except PyError FieldState :=
  match st.df with
  | Option.none => Except.error PyError.noneTypeError
  | some df =>
      match apply_corrections vmap "Crop_type" "Elevation" df with
      | Option.none => Except.error PyError.keyError
      | some df2 => Except.ok { st with df := some df2 }

/-- Embedding of `FieldDataProcessor.weather_station_mapping` as a pipeline step: fetch the
mapping CSV and inner-merge the held dataset with it on Field_ID. -/
def weather_station_mapping_step (mapRes : FetchResult) (st : FieldState) :
    Except PyError FieldState :=
  match read_from_web_CSV mapRes with
  | Except.error e => Except.error e
  | Except.ok mapping_df =>
      match st.df with
      | Option.none => Except.error PyError.noneTypeError
      | some df =>
          match field_weather_station_mapping df mapping_df with
          | Option.none => Except.error PyError.keyError
          | some m => Except.ok { st with df := some m }

/-- Embedding of `FieldDataProcessor.process`: ingest, swap, correct, join, in that fixed
order. -/
def field_process (c1 c2 : String) (vmap : List (String × String))
    (sqlRes mapRes : FetchResult) (st : FieldState) : Except PyError FieldState :=
  pyBind (ingest_sql_data sqlRes st) (fun st1 =>
    pyBind (rename_columns_step c1 c2 st1) (fun st2 =>
      pyBind (apply_corrections_step vmap st2) (fun st3 =>
        weather_station_mapping_step mapRes st3)))

/-- Agreement on everything but diagnostics: the same error is raised, or the
held datasets coincide (the log and level may differ). -/
def ExceptAgree {α : Type} (proj : α → Option DataFrame) :
    Except PyError α → Except PyError α → Prop
  | Except.error e, Except.error e' => e = e'
  | Except.ok s, Except.ok s' => proj s = proj s'
  | _, _ => False

theorem pyBind_agree {α : Type} (proj : α → Option DataFrame)
    (x y : Except PyError α) (f g : α → Except PyError α)
    (hxy : ExceptAgree proj x y)
    (hfg : ∀ s s', proj s = proj s' → ExceptAgree proj (f s) (g s')) :
    ExceptAgree proj (pyBind x f) (pyBind y g) := by
  cases x with
  | error e =>
      cases y with
      | error e' => exact hxy
      | ok s' => exact hxy.elim
  | ok s =>
      cases y with
      | error e' => exact hxy.elim
      | ok s' => exact hfg s s' hxy

theorem logInfoF_df (st : FieldState) (m : String) : (logInfoF st m).df = st.df := by
  unfold logInfoF
  split <;> rfl

theorem ingest_agree (sqlRes : FetchResult) (s s' : FieldState) :
    ExceptAgree FieldState.df (ingest_sql_data sqlRes s) (ingest_sql_data sqlRes s') := by
  unfold ingest_sql_data
  cases query_data sqlRes with
  | error e => exact rfl
  | ok df =>
      show (logInfoF _ _).df = (logInfoF _ _).df
      rw [logInfoF_df, logInfoF_df]

theorem rename_agree (c1 c2 : String) (s s' : FieldState) (h : s.df = s'.df) :
    ExceptAgree FieldState.df (rename_columns_step c1 c2 s)
      (rename_columns_step c1 c2 s') := by
  unfold rename_columns_step
  rw [h]
  cases hd : s'.df with
  | none => exact rfl
  | some df =>
      show (logInfoF _ _).df = (logInfoF _ _).df
      rw [logInfoF_df, logInfoF_df]

theorem corrections_agree (vmap : List (String × String)) (s s' : FieldState)
    (h : s.df = s'.df) :
    ExceptAgree FieldState.df (apply_corrections_step vmap s)
      (apply_corrections_step vmap s') := by
  unfold apply_corrections_step
  rw [h]
  cases hd : s'.df with
  | none => exact rfl
  | some df =>
      dsimp only
      cases apply_corrections vmap "Crop_type" "Elevation" df with
      | none => exact rfl
      | some df2 => exact rfl

theorem wsm_step_agree (mapRes : FetchResult) (s s' : FieldState) (h : s.df = s'.df) :
    ExceptAgree FieldState.df (weather_station_mapping_step mapRes s)
      (weather_station_mapping_step mapRes s') := by
  unfold weather_station_mapping_step
  cases read_from_web_CSV mapRes with
  | error e => exact rfl
  | ok mapping_df =>
      dsimp only
      rw [h]
      cases hd : s'.df with
      | none => exact rfl
      | some df =>
          dsimp only
          cases field_weather_station_mapping df mapping_df with
          | none => exact rfl
          | some m => exact rfl

theorem wsm_w_agree (fetched : FetchResult) (s s' : WeatherState) :
    ExceptAgree WeatherState.weather_df (weather_station_mapping_w fetched s)
      (weather_station_mapping_w fetched s') := by
  unfold weather_station_mapping_w
  cases read_from_web_CSV fetched with
  | error e => exact rfl
  | ok df =>
      show (logInfoW _ _).weather_df = (logInfoW _ _).weather_df
      rw [logInfoW_weather_df, logInfoW_weather_df]

theorem process_messages_w_agree (pyFloat : String → Option Rat)
    (patterns : List (String × Pattern)) (s s' : WeatherState)
    (h : s.weather_df = s'.weather_df) :
    ExceptAgree WeatherState.weather_df (process_messages_w pyFloat patterns s)
      (process_messages_w pyFloat patterns s') := by
  unfold process_messages_w
  rw [h]
  cases hd : s'.weather_df with
  | none =>
      show (logInfoW _ _).weather_df = (logInfoW _ _).weather_df
      rw [logInfoW_weather_df, logInfoW_weather_df]
      exact h
  | some df =>
      dsimp only
      cases colIdx df.columns "Message" with
      | none => exact rfl
      | some mi =>
          dsimp only
          cases extractAll pyFloat patterns mi df.rows with
          | error e => exact rfl
          | ok results =>
              cases results with
              | nil => exact rfl
              | cons p ps =>
                  show (logInfoW _ _).weather_df = (logInfoW _ _).weather_df
                  rw [logInfoW_weather_df, logInfoW_weather_df]

/-- C9 (confirmed): with the same configuration and the same fetched inputs,
two pipeline runs that differ only in the logging level construct the same
dataset (or raise the same error) — the logging level influences diagnostic
output only, never the computed result or control flow. -/
theorem logging_level_noninterference (c1 c2 : String) (vmap : List (String × String))
    (pyFloat : String → Option Rat) (patterns : List (String × Pattern))
    (sqlRes mapRes wRes : FetchResult) (l1 l2 : LogLevel) :
    ExceptAgree FieldState.df
      (field_process c1 c2 vmap sqlRes mapRes (FieldState.mk Option.none l1 []))
      (field_process c1 c2 vmap sqlRes mapRes (FieldState.mk Option.none l2 [])) ∧
    ExceptAgree WeatherState.weather_df
      (weather_process pyFloat patterns wRes (WeatherState.mk Option.none l1 []))
      (weather_process pyFloat patterns wRes (WeatherState.mk Option.none l2 [])) := by
  constructor
  · unfold field_process
    apply pyBind_agree FieldState.df _ _ _ _ (ingest_agree sqlRes _ _)
    intro s1 s1' h1
    apply pyBind_agree FieldState.df _ _ _ _ (rename_agree c1 c2 s1 s1' h1)
    intro s2 s2' h2
    apply pyBind_agree FieldState.df _ _ _ _ (corrections_agree vmap s2 s2' h2)
    intro s3 s3' h3
    exact wsm_step_agree mapRes s3 s3' h3
  · unfold weather_process
    apply pyBind_agree WeatherState.weather_df _ _ _ _ (wsm_w_agree wRes _ _)
    intro s1 s1' h1
    apply pyBind_agree WeatherState.weather_df _ _ _ _
      (process_messages_w_agree pyFloat patterns s1 s1' h1)
    intro s2 s2' h2
    show (logInfoW _ _).weather_df = (logInfoW _ _).weather_df
    rw [logInfoW_weather_df, logInfoW_weather_df]
    exact h2
